import Mathlib

/-!
# faketikv node bootstrap (`node/main.go`)

A shallow embedding of `main` and `handleSignal` of `node/main.go`.

`main` is straight-line effectful code: it reads the command-line flags, fills in
the option record of the storage engine, opens the engine, builds the Region
Manager, the MVCC store and the server over it, serves, and finally closes
everything.  The embedding keeps that shape:

* the flag variables of the `var ( ... )` block are the fields of `Flags`, and
  their declared default values are `Flags.defaults`;
* everything `main` calls outside this file (badger, the `tikv` package, grpc,
  `net`, the logger) is a field of `Env`: the engine default options, and for
  every call that returns something the value it returns;
* `main` runs in a state-and-exit monad `M`; the state `World` holds the trace of
  external calls made so far, in program order, and the package variable
  `tikv.LogTraceMS`; `log.Fatal` records its event and leaves through the
  exception channel: it ends the process and never returns. The exit status is
  chosen inside the logger package, outside this file, and is not modelled.

Go `int`/`int64` values are integers of `Int`; the single arithmetic operation of
the file (`opts.NumLevelZeroTables + 5`) wraps at 64 bits.

Goroutines started by `main` (`go http.ListenAndServe`, the signal waiter of
`handleSignal`) are recorded at the point where they are started; their bodies
run concurrently and reach `main` only through what `grpcServer.Serve` returns.
-/

namespace FakeTikv

/-! ## Data model -/

/-- Go `error` values, identified by their message. -/
abbrev Error := String

/-- The enumeration `options.FileLoadingMode` of badger (`FileIO = iota`, `LoadToRAM`, `MemoryMap`). -/
inductive FileLoadingMode where
  | FileIO
  | LoadToRAM
  | MemoryMap
  deriving DecidableEq, Repr

/-- The fields of `badger.Options` that `main` reads or writes. -/
structure Options where
  Dir : String
  ValueDir : String
  SyncWrites : Bool
  TableLoadingMode : FileLoadingMode
  ValueLogLoadingMode : FileLoadingMode
  MaxTableSize : Int
  NumMemtables : Int
  NumLevelZeroTables : Int
  NumLevelZeroTablesStall : Int
  ValueThreshold : Int
  deriving DecidableEq, Repr

/-- The record `tikv.RegionOptions` as `main` builds it. -/
structure RegionOptions where
  StoreAddr : String
  PDAddr : String
  RegionSize : Int
  deriving DecidableEq, Repr

/-- Handle of an opened engine (`*badger.DB`). -/
structure DB where
  id : Nat
  deriving DecidableEq, Repr

/-- Handle of a Region Manager (`*tikv.RegionManager`). -/
structure RegionManager where
  id : Nat
  deriving DecidableEq, Repr

/-- Handle of an MVCC store (`*tikv.MVCCStore`). -/
structure MVCCStore where
  id : Nat
  deriving DecidableEq, Repr

/-- Handle of the request dispatcher (`*tikv.Server`). -/
structure Server where
  id : Nat
  deriving DecidableEq, Repr

/-- Handle of a `*grpc.Server`. -/
structure GrpcServer where
  id : Nat
  deriving DecidableEq, Repr

/-- Handle of a `net.Listener`. -/
structure Listener where
  id : Nat
  deriving DecidableEq, Repr

/-- The flag variables of `node/main.go`, lines 21-37, after `flag.Parse`. -/
structure Flags where
  pdAddr : String
  storeAddr : String
  httpAddr : String
  dbPath : String
  vlogPath : String
  valThreshold : Int
  regionSize : Int
  logLevel : String
  tableLoadingMode : String
  maxTableSize : Int
  numMemTables : Int
  numL0Table : Int
  syncWrites : Bool
  logTrace : Nat
  maxProcs : Int
  deriving DecidableEq, Repr

/-- The default value of every flag, second argument of its `flag.X` declaration:
what the flag variables hold after `flag.Parse` when no argument was given. -/
def Flags.defaults : Flags where
  pdAddr := "127.0.0.1:2379"
  storeAddr := "127.0.0.1:9191"
  httpAddr := "127.0.0.1:9291"
  dbPath := "/tmp/badger"
  vlogPath := ""
  valThreshold := 20
  regionSize := 96 * 1024 * 1024
  logLevel := "info"
  tableLoadingMode := "memory-map"
  maxTableSize := 64 <<< 20
  numMemTables := 3
  numL0Table := 3
  syncWrites := true
  logTrace := 300
  maxProcs := 0

/-- The package variable `gitHash`. -/
def gitHash : String := "None"

/-- Signals named in `handleSignal`. -/
inductive Signal where
  | SIGHUP
  | SIGINT
  | SIGTERM
  | SIGQUIT
  deriving DecidableEq, Repr

/-- One external call made by `main`, with the arguments it was given. -/
inductive Event where
  | flagParse
  | GOMAXPROCS (n : Int)
  | logInfo (args : List String)
  | logError (err : Error)
  | logFatal (err : Error)
  | logSetLevelByString (level : String)
  | logSetFlags (names : List String)
  | goHTTPListenAndServe (addr : String)
  | badgerOpen (opts : Options)
  | NewRegionManager (db : DB) (opts : RegionOptions)
  | NewMVCCStore (db : DB) (dir : String)
  | NewServer (rm : RegionManager) (store : MVCCStore)
  | grpcNewServer
  | RegisterTikvServer (g : GrpcServer) (srv : Server)
  | netListen (network : String) (addr : String)
  | signalNotify (sigs : List Signal)
  | goSignalWaiter (g : GrpcServer)
  | Serve (g : GrpcServer) (l : Listener)
  | tikvServerStop (srv : Server)
  | storeClose (store : MVCCStore)
  | rmClose (rm : RegionManager)
  | dbClose (db : DB)
  deriving DecidableEq, Repr

/-- What the code outside `node/main.go` answers to `main`: the engine default
options, the initial value of `tikv.LogTraceMS`, and the value returned by each
call whose result `main` uses. A Go `(x, err)` result is a pair whose second
component is `none` for a nil error. -/
structure Env where
  DefaultOptions : Options
  LogTraceMS : Nat
  badgerOpen : Options → DB × Option Error
  NewRegionManager : DB → RegionOptions → RegionManager
  NewMVCCStore : DB → String → MVCCStore
  NewServer : RegionManager → MVCCStore → Server
  grpcNewServer : GrpcServer
  netListen : String → String → Listener × Option Error
  Serve : GrpcServer → Listener → Option Error
  storeClose : MVCCStore → Option Error
  rmClose : RegionManager → Option Error
  dbClose : DB → Option Error

/-- The observable state: calls made so far, oldest first, and `tikv.LogTraceMS`. -/
structure World where
  trace : List Event
  LogTraceMS : Nat
  deriving DecidableEq, Repr

/-- How a process that did not return from `main` was ended: by `log.Fatal` on
the error `err`. -/
inductive Exited where
  | fatal (err : Error)
  deriving DecidableEq, Repr

/-- Effectful code that may end the process instead of returning. -/
abbrev M := ExceptT Exited (StateM World)

/-- Record one external call. -/
def emit (e : Event) : M Unit :=
  modify fun w => { w with trace := w.trace ++ [e] }

/-- The call `log.Fatal(err)`: log the error, then end the process. -/
def logFatal {α : Type} (err : Error) : M α := do
  emit (.logFatal err)
  throw (.fatal err)

/-- Two's complement wrap-around of a 64-bit signed integer. -/
def wrapInt64 (x : Int) : Int := (x + 2 ^ 63) % 2 ^ 64 - 2 ^ 63

/-! ## The program -/

/-- Lines 52-68 of `main`: the option record handed to `badger.Open`, computed
from the engine defaults and the flags. -/
def engineOptions (DefaultOptions : Options) (flags : Flags) : Options := Id.run do
  let mut opts := DefaultOptions
  opts := { opts with ValueThreshold := flags.valThreshold }
  opts := { opts with Dir := flags.dbPath }
  if flags.vlogPath ≠ "" then
    opts := { opts with ValueDir := flags.vlogPath }
  else
    opts := { opts with ValueDir := opts.Dir }
  if flags.tableLoadingMode = "memory-map" then
    opts := { opts with TableLoadingMode := FileLoadingMode.MemoryMap }
  opts := { opts with ValueLogLoadingMode := FileLoadingMode.FileIO }
  opts := { opts with MaxTableSize := flags.maxTableSize }
  opts := { opts with NumMemtables := flags.numMemTables }
  opts := { opts with NumLevelZeroTables := flags.numL0Table }
  opts := { opts with NumLevelZeroTablesStall := wrapInt64 (opts.NumLevelZeroTables + 5) }
  opts := { opts with SyncWrites := flags.syncWrites }
  return opts

/-- The function `handleSignal`: subscribe to the four signals and start the
goroutine that waits for one and then calls `grpcServer.Stop()`. -/
def handleSignal (grpcServer : GrpcServer) : M Unit := do
  emit (.signalNotify [.SIGHUP, .SIGINT, .SIGTERM, .SIGQUIT])
  emit (.goSignalWaiter grpcServer)

/-- The function `main`. -/
def main (env : Env) (flags : Flags) : M Unit := do
  emit .flagParse
  emit (.GOMAXPROCS flags.maxProcs)
  emit (.logInfo ["gitHash:", gitHash])
  emit (.logSetLevelByString flags.logLevel)
  emit (.logSetFlags ["Ldate", "Ltime", "Lmicroseconds", "Lshortfile"])
  modify fun w => { w with LogTraceMS := flags.logTrace }
  emit (.goHTTPListenAndServe flags.httpAddr)
  let opts := engineOptions env.DefaultOptions flags
  emit (.badgerOpen opts)
  let (db, err) := env.badgerOpen opts
  if let some e := err then
    logFatal e
  let regionOpts : RegionOptions :=
    { StoreAddr := flags.storeAddr
      PDAddr := flags.pdAddr
      RegionSize := flags.regionSize }
  emit (.NewRegionManager db regionOpts)
  let rm := env.NewRegionManager db regionOpts
  emit (.NewMVCCStore db opts.Dir)
  let store := env.NewMVCCStore db opts.Dir
  emit (.NewServer rm store)
  let tikvServer := env.NewServer rm store
  emit .grpcNewServer
  let grpcServer := env.grpcNewServer
  emit (.RegisterTikvServer grpcServer tikvServer)
  emit (.netListen "tcp" flags.storeAddr)
  let (l, err) := env.netListen "tcp" flags.storeAddr
  if let some e := err then
    logFatal e
  handleSignal grpcServer
  emit (.Serve grpcServer l)
  let err := env.Serve grpcServer l
  if let some e := err then
    emit (.logError e)
  emit (.tikvServerStop tikvServer)
  emit (.logInfo ["Server stopped."])
  emit (.storeClose store)
  let err := env.storeClose store
  if let some e := err then
    emit (.logError e)
  else
    emit (.logInfo ["Store closed."])
  emit (.rmClose rm)
  let err := env.rmClose rm
  if let some e := err then
    emit (.logError e)
  else
    emit (.logInfo ["RegionManager closed."])
  emit (.dbClose db)
  let err := env.dbClose db
  if let some e := err then
    emit (.logError e)
  else
    emit (.logInfo ["DB closed."])

/-- Run a piece of code from the state `w`: how it ended (`.ok a` when it
returned `a`, `.error x` when the process was ended as `x` says) and the state
it left. -/
def exec {α : Type} (m : M α) (w : World) : Except Exited α × World :=
  m.run.run w

/-- Run `main` from an empty trace. -/
def runMain (env : Env) (flags : Flags) : Except Exited Unit × World :=
  exec (main env flags) { trace := [], LogTraceMS := env.LogTraceMS }

/-! ## Classes of calls -/

/-- The call `badger.Open`. -/
def Event.isOpenCall : Event → Bool
  | .badgerOpen _ => true
  | _ => false

/-- The constructors of the Region Manager, the MVCC store and the server. -/
def Event.isConstruction : Event → Bool
  | .NewRegionManager _ _ => true
  | .NewMVCCStore _ _ => true
  | .NewServer _ _ => true
  | _ => false

/-- The call `tikv.NewRegionManager`. -/
def Event.isNewRegionManager : Event → Bool
  | .NewRegionManager _ _ => true
  | _ => false

/-- The call `grpcServer.Serve`. -/
def Event.isServeCall : Event → Bool
  | .Serve _ _ => true
  | _ => false

/-- The four calls of the shutdown sequence: `Stop` of the server and the three `Close`. -/
def Event.isShutdownCall : Event → Bool
  | .tikvServerStop _ => true
  | .storeClose _ => true
  | .rmClose _ => true
  | .dbClose _ => true
  | _ => false

/-- Every call that `main` makes after line 72, that is after the check of the
error of `badger.Open`, `log.Error` and `log.Info` apart. -/
def Event.isLaterStep : Event → Bool
  | .NewRegionManager _ _ => true
  | .NewMVCCStore _ _ => true
  | .NewServer _ _ => true
  | .grpcNewServer => true
  | .RegisterTikvServer _ _ => true
  | .netListen _ _ => true
  | .signalNotify _ => true
  | .goSignalWaiter _ => true
  | .Serve _ _ => true
  | .tikvServerStop _ => true
  | .storeClose _ => true
  | .rmClose _ => true
  | .dbClose _ => true
  | _ => false

/-! ## The trace of `main`, segment by segment -/

/-- The calls of lines 44-69, up to and including `badger.Open`. -/
def bootTrace (env : Env) (f : Flags) : List Event :=
  [.flagParse, .GOMAXPROCS f.maxProcs, .logInfo ["gitHash:", gitHash],
   .logSetLevelByString f.logLevel,
   .logSetFlags ["Ldate", "Ltime", "Lmicroseconds", "Lshortfile"],
   .goHTTPListenAndServe f.httpAddr,
   .badgerOpen (engineOptions env.DefaultOptions f)]

/-- The calls of lines 73-84, from the Region Manager to `net.Listen`. -/
def wireTrace (env : Env) (f : Flags) : List Event :=
  let db := (env.badgerOpen (engineOptions env.DefaultOptions f)).1
  let ro : RegionOptions :=
    { StoreAddr := f.storeAddr, PDAddr := f.pdAddr, RegionSize := f.regionSize }
  let rm := env.NewRegionManager db ro
  let store := env.NewMVCCStore db (engineOptions env.DefaultOptions f).Dir
  [.NewRegionManager db ro, .NewMVCCStore db (engineOptions env.DefaultOptions f).Dir,
   .NewServer rm store, .grpcNewServer,
   .RegisterTikvServer env.grpcNewServer (env.NewServer rm store),
   .netListen "tcp" f.storeAddr]

/-- What lines 96-100 (and 102-106, 108-112) log after a `Close` that returned `err`. -/
def closeLog (err : Option Error) (okMsg : String) : List Event :=
  match err with
  | some e => [.logError e]
  | none => [.logInfo [okMsg]]

/-- The calls of lines 88-92: `handleSignal`, `Serve` and the log of its error. -/
def serveTrace (env : Env) (f : Flags) : List Event :=
  let g := env.grpcNewServer
  let l := (env.netListen "tcp" f.storeAddr).1
  [.signalNotify [.SIGHUP, .SIGINT, .SIGTERM, .SIGQUIT], .goSignalWaiter g, .Serve g l] ++
    (match env.Serve g l with
     | some e => [.logError e]
     | none => [])

/-- The calls of lines 93-112. -/
def shutdownTrace (env : Env) (f : Flags) : List Event :=
  let db := (env.badgerOpen (engineOptions env.DefaultOptions f)).1
  let ro : RegionOptions :=
    { StoreAddr := f.storeAddr, PDAddr := f.pdAddr, RegionSize := f.regionSize }
  let rm := env.NewRegionManager db ro
  let store := env.NewMVCCStore db (engineOptions env.DefaultOptions f).Dir
  [.tikvServerStop (env.NewServer rm store), .logInfo ["Server stopped."], .storeClose store] ++
    closeLog (env.storeClose store) "Store closed." ++ [.rmClose rm] ++
    closeLog (env.rmClose rm) "RegionManager closed." ++ [.dbClose db] ++
    closeLog (env.dbClose db) "DB closed."

/-! ## The objects `main` builds -/

/-- The engine handle `db` returned by `badger.Open` (line 69). -/
def mainDB (env : Env) (f : Flags) : DB :=
  (env.badgerOpen (engineOptions env.DefaultOptions f)).1

/-- The Region Manager `rm` of line 78. -/
def mainRM (env : Env) (f : Flags) : RegionManager :=
  env.NewRegionManager (mainDB env f)
    { StoreAddr := f.storeAddr, PDAddr := f.pdAddr, RegionSize := f.regionSize }

/-- The MVCC store `store` of line 79. -/
def mainStore (env : Env) (f : Flags) : MVCCStore :=
  env.NewMVCCStore (mainDB env f) (engineOptions env.DefaultOptions f).Dir

/-- The server `tikvServer` of line 80. -/
def mainServer (env : Env) (f : Flags) : Server :=
  env.NewServer (mainRM env f) (mainStore env f)

/-- The listener `l` of line 84. -/
def mainListener (env : Env) (f : Flags) : Listener :=
  (env.netListen "tcp" f.storeAddr).1

/-! ## Sample environments -/

/-- Engine defaults whose table loading mode is `LoadToRAM`. -/
def sampleDefaults : Options where
  Dir := "/tmp/badger"
  ValueDir := "/tmp/badger"
  SyncWrites := true
  TableLoadingMode := FileLoadingMode.LoadToRAM
  ValueLogLoadingMode := FileLoadingMode.MemoryMap
  MaxTableSize := 64 <<< 20
  NumMemtables := 5
  NumLevelZeroTables := 5
  NumLevelZeroTablesStall := 10
  ValueThreshold := 32

/-- Engine defaults whose table loading mode is `MemoryMap`. -/
def mmapDefaults : Options :=
  { sampleDefaults with TableLoadingMode := FileLoadingMode.MemoryMap }

/-- The default flags with `-table-loading-mode load-to-ram`. -/
def loadToRamFlags : Flags :=
  { Flags.defaults with tableLoadingMode := "load-to-ram" }

/-- An environment in which every call succeeds. -/
def sampleEnv : Env where
  DefaultOptions := sampleDefaults
  LogTraceMS := 0
  badgerOpen := fun _ => (⟨1⟩, none)
  NewRegionManager := fun _ _ => ⟨2⟩
  NewMVCCStore := fun _ _ => ⟨3⟩
  NewServer := fun _ _ => ⟨4⟩
  grpcNewServer := ⟨5⟩
  netListen := fun _ _ => (⟨6⟩, none)
  Serve := fun _ _ => none
  storeClose := fun _ => none
  rmClose := fun _ => none
  dbClose := fun _ => none

/-- An environment whose engine defaults load tables with `MemoryMap`. -/
def mmapEnv : Env :=
  { sampleEnv with DefaultOptions := mmapDefaults }

/-- An environment in which `badger.Open` fails. -/
def openFailEnv : Env :=
  { sampleEnv with badgerOpen := fun _ => (⟨0⟩, some "Cannot acquire directory lock") }

/-- An environment in which `Serve` and two of the three `Close` calls return an error. -/
def closeFailEnv : Env :=
  { sampleEnv with
    Serve := fun _ _ => some "use of closed network connection"
    storeClose := fun _ => some "store: close failed"
    rmClose := fun _ => some "region manager: close failed" }

/-! ## Running the monad step by step -/

theorem exec_bind {α β : Type} (m : M α) (k : α → M β) (w : World) :
    exec (m >>= k) w =
      match exec m w with
      | (.ok a, w1) => exec (k a) w1
      | (.error x, w1) => (.error x, w1) := by
  simp only [exec, ExceptT.run_bind, StateT.run_bind]
  rcases hm : StateT.run (ExceptT.run m) w with ⟨r, w1⟩
  cases r <;> rfl

theorem exec_pure {α : Type} (a : α) (w : World) : exec (pure a : M α) w = (.ok a, w) := rfl

theorem exec_emit (e : Event) (w : World) :
    exec (emit e) w = (.ok (), ⟨w.trace ++ [e], w.LogTraceMS⟩) := rfl

theorem exec_modify (g : World → World) (w : World) :
    exec (modify g : M PUnit) w = (.ok (), g w) := rfl

theorem exec_logFatal {α : Type} (e : Error) (w : World) :
    exec (logFatal e : M α) w =
      (.error (.fatal e), ⟨w.trace ++ [.logFatal e], w.LogTraceMS⟩) := rfl

theorem exec_handleSignal (g : GrpcServer) (w : World) :
    exec (handleSignal g) w =
      (.ok (),
        ⟨w.trace ++ [.signalNotify [.SIGHUP, .SIGINT, .SIGTERM, .SIGQUIT], .goSignalWaiter g],
          w.LogTraceMS⟩) := by
  simp [handleSignal, exec_bind, exec_emit]

/-! ## The three ways `main` can end -/

/-- The option record of lines 52-68, field by field. -/
theorem engineOptions_eq (d : Options) (f : Flags) :
    engineOptions d f =
      { Dir := f.dbPath
        ValueDir := if f.vlogPath = "" then f.dbPath else f.vlogPath
        SyncWrites := f.syncWrites
        TableLoadingMode :=
          if f.tableLoadingMode = "memory-map" then FileLoadingMode.MemoryMap
          else d.TableLoadingMode
        ValueLogLoadingMode := FileLoadingMode.FileIO
        MaxTableSize := f.maxTableSize
        NumMemtables := f.numMemTables
        NumLevelZeroTables := f.numL0Table
        NumLevelZeroTablesStall := wrapInt64 (f.numL0Table + 5)
        ValueThreshold := f.valThreshold } := by
  unfold engineOptions
  by_cases h1 : f.vlogPath = "" <;> by_cases h2 : f.tableLoadingMode = "memory-map" <;>
    simp [h1, h2, Id.run]

/-- When `badger.Open` fails, `main` exits right after logging the error. -/
theorem runMain_open_fail (env : Env) (f : Flags) (e : Error)
    (h : (env.badgerOpen (engineOptions env.DefaultOptions f)).2 = some e) :
    runMain env f =
      (.error (.fatal e), ⟨bootTrace env f ++ [.logFatal e], f.logTrace⟩) := by
  unfold runMain main bootTrace
  generalize engineOptions env.DefaultOptions f = opts at *
  simp only [h, exec_bind, exec_emit, exec_modify, exec_pure, exec_logFatal,
    List.nil_append, List.append_assoc, List.cons_append]

/-- When the engine opens and `net.Listen` fails, `main` exits after the wiring. -/
theorem runMain_listen_fail (env : Env) (f : Flags) (e : Error)
    (h : (env.badgerOpen (engineOptions env.DefaultOptions f)).2 = none)
    (hl : (env.netListen "tcp" f.storeAddr).2 = some e) :
    runMain env f =
      (.error (.fatal e),
        ⟨bootTrace env f ++ wireTrace env f ++ [.logFatal e], f.logTrace⟩) := by
  unfold runMain main bootTrace wireTrace
  generalize engineOptions env.DefaultOptions f = opts at *
  simp only [h, hl, exec_bind, exec_emit, exec_modify, exec_pure, exec_logFatal,
    List.nil_append, List.append_assoc, List.cons_append]

/-- When the engine opens and the listener binds, `main` runs to its end. -/
theorem runMain_ok (env : Env) (f : Flags)
    (h : (env.badgerOpen (engineOptions env.DefaultOptions f)).2 = none)
    (hl : (env.netListen "tcp" f.storeAddr).2 = none) :
    runMain env f =
      (.ok (),
        ⟨bootTrace env f ++ wireTrace env f ++ serveTrace env f ++ shutdownTrace env f,
          f.logTrace⟩) := by
  unfold runMain main wireTrace serveTrace shutdownTrace closeLog bootTrace
  generalize engineOptions env.DefaultOptions f = opts at *
  cases h1 : env.Serve env.grpcNewServer (env.netListen "tcp" f.storeAddr).1 <;>
  cases h2 : env.storeClose (env.NewMVCCStore (env.badgerOpen opts).1 opts.Dir) <;>
  cases h3 : env.rmClose (env.NewRegionManager (env.badgerOpen opts).1
    { StoreAddr := f.storeAddr, PDAddr := f.pdAddr, RegionSize := f.regionSize }) <;>
  cases h4 : env.dbClose (env.badgerOpen opts).1 <;>
  simp only [h, hl, h1, h2, h3, h4, exec_bind, exec_emit, exec_modify, exec_pure,
    exec_handleSignal, List.nil_append, List.append_assoc, List.cons_append]

/-- The trace of every run starts with the calls up to `badger.Open`, and no later
call is a `badger.Open`. -/
theorem openCalls_eq (env : Env) (f : Flags) :
    (runMain env f).2.trace.filter Event.isOpenCall =
      [.badgerOpen (engineOptions env.DefaultOptions f)] := by
  cases h : (env.badgerOpen (engineOptions env.DefaultOptions f)).2 with
  | some e =>
    rw [runMain_open_fail env f e h]
    simp [bootTrace, Event.isOpenCall]
  | none =>
    cases hl : (env.netListen "tcp" f.storeAddr).2 with
    | some e =>
      rw [runMain_listen_fail env f e h hl]
      simp [bootTrace, wireTrace, Event.isOpenCall]
    | none =>
      rw [runMain_ok env f h hl]
      simp only [bootTrace, wireTrace, serveTrace, shutdownTrace, closeLog]
      cases env.Serve env.grpcNewServer (env.netListen "tcp" f.storeAddr).1 <;>
      cases env.storeClose (env.NewMVCCStore
        (env.badgerOpen (engineOptions env.DefaultOptions f)).1
        (engineOptions env.DefaultOptions f).Dir) <;>
      cases env.rmClose (env.NewRegionManager
        (env.badgerOpen (engineOptions env.DefaultOptions f)).1
        { StoreAddr := f.storeAddr, PDAddr := f.pdAddr, RegionSize := f.regionSize }) <;>
      cases env.dbClose (env.badgerOpen (engineOptions env.DefaultOptions f)).1 <;>
      simp [Event.isOpenCall]

/-- The variable `tikv.LogTraceMS` holds the flag value at the end of every run. -/
theorem logTraceMS_eq (env : Env) (f : Flags) :
    (runMain env f).2.LogTraceMS = f.logTrace := by
  cases h : (env.badgerOpen (engineOptions env.DefaultOptions f)).2 with
  | some e => rw [runMain_open_fail env f e h]
  | none =>
    cases hl : (env.netListen "tcp" f.storeAddr).2 with
    | some e => rw [runMain_listen_fail env f e h hl]
    | none => rw [runMain_ok env f h hl]

/-- The Region Manager is built once when the engine opens, and never otherwise. -/
theorem regionManagerCalls_eq (env : Env) (f : Flags) :
    (runMain env f).2.trace.filter Event.isNewRegionManager =
      (if (env.badgerOpen (engineOptions env.DefaultOptions f)).2 = none then
        [.NewRegionManager (mainDB env f)
          { StoreAddr := f.storeAddr, PDAddr := f.pdAddr, RegionSize := f.regionSize }]
       else []) := by
  cases h : (env.badgerOpen (engineOptions env.DefaultOptions f)).2 with
  | some e =>
    rw [runMain_open_fail env f e h]
    simp [bootTrace, Event.isNewRegionManager]
  | none =>
    cases hl : (env.netListen "tcp" f.storeAddr).2 with
    | some e =>
      rw [runMain_listen_fail env f e h hl]
      simp [bootTrace, wireTrace, Event.isNewRegionManager, mainDB]
    | none =>
      rw [runMain_ok env f h hl]
      simp only [bootTrace, wireTrace, serveTrace, shutdownTrace, closeLog, mainDB]
      cases env.Serve env.grpcNewServer (env.netListen "tcp" f.storeAddr).1 <;>
      cases env.storeClose (env.NewMVCCStore
        (env.badgerOpen (engineOptions env.DefaultOptions f)).1
        (engineOptions env.DefaultOptions f).Dir) <;>
      cases env.rmClose (env.NewRegionManager
        (env.badgerOpen (engineOptions env.DefaultOptions f)).1
        { StoreAddr := f.storeAddr, PDAddr := f.pdAddr, RegionSize := f.regionSize }) <;>
      cases env.dbClose (env.badgerOpen (engineOptions env.DefaultOptions f)).1 <;>
      simp [Event.isNewRegionManager]

/-- The directory of the option record is the flag `db-path`. -/
theorem engineOptions_Dir (d : Options) (f : Flags) : (engineOptions d f).Dir = f.dbPath := by
  rw [engineOptions_eq]

/-- The constructor calls of a run in which the engine opens. -/
theorem constructions_eq (env : Env) (f : Flags)
    (h : (env.badgerOpen (engineOptions env.DefaultOptions f)).2 = none) :
    (runMain env f).2.trace.filter Event.isConstruction =
      [.NewRegionManager (env.badgerOpen (engineOptions env.DefaultOptions f)).1
          { StoreAddr := f.storeAddr, PDAddr := f.pdAddr, RegionSize := f.regionSize },
       .NewMVCCStore (env.badgerOpen (engineOptions env.DefaultOptions f)).1
          (engineOptions env.DefaultOptions f).Dir,
       .NewServer
          (env.NewRegionManager (env.badgerOpen (engineOptions env.DefaultOptions f)).1
            { StoreAddr := f.storeAddr, PDAddr := f.pdAddr, RegionSize := f.regionSize })
          (env.NewMVCCStore (env.badgerOpen (engineOptions env.DefaultOptions f)).1
            (engineOptions env.DefaultOptions f).Dir)] := by
  cases hl : (env.netListen "tcp" f.storeAddr).2 with
  | some e =>
    rw [runMain_listen_fail env f e h hl]
    simp [bootTrace, wireTrace, Event.isConstruction]
  | none =>
    rw [runMain_ok env f h hl]
    simp only [bootTrace, wireTrace, serveTrace, shutdownTrace, closeLog]
    cases env.Serve env.grpcNewServer (env.netListen "tcp" f.storeAddr).1 <;>
    cases env.storeClose (env.NewMVCCStore
      (env.badgerOpen (engineOptions env.DefaultOptions f)).1
      (engineOptions env.DefaultOptions f).Dir) <;>
    cases env.rmClose (env.NewRegionManager
      (env.badgerOpen (engineOptions env.DefaultOptions f)).1
      { StoreAddr := f.storeAddr, PDAddr := f.pdAddr, RegionSize := f.regionSize }) <;>
    cases env.dbClose (env.badgerOpen (engineOptions env.DefaultOptions f)).1 <;>
    simp [Event.isConstruction]

/-- The stop and close calls of a run that reaches the shutdown sequence. -/
theorem shutdownCalls_eq (env : Env) (f : Flags)
    (h : (env.badgerOpen (engineOptions env.DefaultOptions f)).2 = none)
    (hl : (env.netListen "tcp" f.storeAddr).2 = none) :
    (runMain env f).2.trace.filter Event.isShutdownCall =
      [.tikvServerStop (mainServer env f), .storeClose (mainStore env f),
       .rmClose (mainRM env f), .dbClose (mainDB env f)] := by
  rw [runMain_ok env f h hl]
  simp only [bootTrace, wireTrace, serveTrace, shutdownTrace, closeLog, mainListener,
    mainServer, mainStore, mainRM, mainDB]
  cases env.Serve env.grpcNewServer (env.netListen "tcp" f.storeAddr).1 <;>
  cases env.storeClose (env.NewMVCCStore
    (env.badgerOpen (engineOptions env.DefaultOptions f)).1
    (engineOptions env.DefaultOptions f).Dir) <;>
  cases env.rmClose (env.NewRegionManager
    (env.badgerOpen (engineOptions env.DefaultOptions f)).1
    { StoreAddr := f.storeAddr, PDAddr := f.pdAddr, RegionSize := f.regionSize }) <;>
  cases env.dbClose (env.badgerOpen (engineOptions env.DefaultOptions f)).1 <;>
  simp [Event.isShutdownCall]

/-- A shutdown call occurs in the trace as often as among its shutdown calls. -/
theorem count_shutdownCall (tr : List Event) (ev : Event) (hev : ev.isShutdownCall = true) :
    tr.count ev = (tr.filter Event.isShutdownCall).count ev :=
  (List.count_filter hev).symm

/-! ## The claims -/

/-- C2. Engine option pass-through: in every run `badger.Open` is called exactly
once, and the options it is handed have `Dir`, `ValueThreshold`, `MaxTableSize`,
`NumMemtables`, `NumLevelZeroTables` and `SyncWrites` equal to the values of the
flags `db-path`, `value-threshold`, `max-table-size`, `num-mem-tables`,
`num-level-zero-tables` and `sync-write`, and `ValueLogLoadingMode = FileIO`,
whatever the flags and the engine defaults are. -/
theorem engine_options_pass_through (env : Env) (f : Flags) :
    (runMain env f).2.trace.filter Event.isOpenCall =
        [.badgerOpen (engineOptions env.DefaultOptions f)] ∧
      (engineOptions env.DefaultOptions f).Dir = f.dbPath ∧
      (engineOptions env.DefaultOptions f).ValueThreshold = f.valThreshold ∧
      (engineOptions env.DefaultOptions f).MaxTableSize = f.maxTableSize ∧
      (engineOptions env.DefaultOptions f).NumMemtables = f.numMemTables ∧
      (engineOptions env.DefaultOptions f).NumLevelZeroTables = f.numL0Table ∧
      (engineOptions env.DefaultOptions f).SyncWrites = f.syncWrites ∧
      (engineOptions env.DefaultOptions f).ValueLogLoadingMode = FileLoadingMode.FileIO := by
  refine ⟨openCalls_eq env f, ?_⟩
  rw [engineOptions_eq]
  exact ⟨rfl, rfl, rfl, rfl, rfl, rfl, rfl⟩

/-- C4. Value-log directory selection: the options handed to `badger.Open` have
`ValueDir` equal to `db-path` when `vlog-path` is the empty string and to
`vlog-path` otherwise; hence, when `vlog-path` is empty or equal to `db-path`,
`ValueDir = Dir`. -/
theorem value_dir_selection (env : Env) (f : Flags) :
    (runMain env f).2.trace.filter Event.isOpenCall =
        [.badgerOpen (engineOptions env.DefaultOptions f)] ∧
      (engineOptions env.DefaultOptions f).ValueDir =
        (if f.vlogPath = "" then f.dbPath else f.vlogPath) ∧
      (engineOptions env.DefaultOptions f).ValueDir =
        (if f.vlogPath = "" ∨ f.vlogPath = f.dbPath then (engineOptions env.DefaultOptions f).Dir
         else f.vlogPath) := by
  refine ⟨openCalls_eq env f, ?_⟩
  rw [engineOptions_eq]
  by_cases h1 : f.vlogPath = ""
  · simp [h1]
  · by_cases h2 : f.vlogPath = f.dbPath
    · simp [h2]
    · simp [h1, h2]

/-- C5. The claim fails on the code at the flag value `load-to-ram`: lines 60-62
assign `TableLoadingMode` only for `memory-map` and have no branch for
`load-to-ram`, the other value the usage string of the flag (line 30) offers.
With engine defaults whose `TableLoadingMode` is `MemoryMap`, a run with
`-table-loading-mode load-to-ram` hands `badger.Open` options with
`TableLoadingMode = MemoryMap`, not `LoadToRAM`. -/
theorem table_loading_mode_load_to_ram_ignored :
    loadToRamFlags.tableLoadingMode = "load-to-ram" ∧
      mmapEnv.DefaultOptions.TableLoadingMode = FileLoadingMode.MemoryMap ∧
      (runMain mmapEnv loadToRamFlags).2.trace.filter Event.isOpenCall =
        [.badgerOpen (engineOptions mmapEnv.DefaultOptions loadToRamFlags)] ∧
      (engineOptions mmapEnv.DefaultOptions loadToRamFlags).TableLoadingMode =
        FileLoadingMode.MemoryMap ∧
      (engineOptions mmapEnv.DefaultOptions loadToRamFlags).TableLoadingMode ≠
        FileLoadingMode.LoadToRAM := by
  refine ⟨rfl, rfl, openCalls_eq _ _, ?_, ?_⟩
  · rw [engineOptions_eq]; rfl
  · rw [engineOptions_eq]; decide

/-- C6. Default configuration: started without arguments, `main` hands
`badger.Open` the options `Dir = ValueDir = "/tmp/badger"`, `ValueThreshold = 20`,
`MaxTableSize = 67108864`, `NumMemtables = 3`, `NumLevelZeroTables = 3`,
`NumLevelZeroTablesStall = 8`, `SyncWrites = true`, `TableLoadingMode = MemoryMap`
(and `ValueLogLoadingMode = FileIO`), sets `tikv.LogTraceMS` to 300, and, when
the engine opens, builds the Region Manager with `StoreAddr = "127.0.0.1:9191"`,
`PDAddr = "127.0.0.1:2379"` and `RegionSize = 96*1024*1024 = 100663296`; when the
engine does not open no Region Manager is built. -/
theorem default_configuration (env : Env) :
    (runMain env Flags.defaults).2.trace.filter Event.isOpenCall =
        [.badgerOpen
          { Dir := "/tmp/badger"
            ValueDir := "/tmp/badger"
            SyncWrites := true
            TableLoadingMode := FileLoadingMode.MemoryMap
            ValueLogLoadingMode := FileLoadingMode.FileIO
            MaxTableSize := 67108864
            NumMemtables := 3
            NumLevelZeroTables := 3
            NumLevelZeroTablesStall := 8
            ValueThreshold := 20 }] ∧
      (runMain env Flags.defaults).2.LogTraceMS = 300 ∧
      (96 * 1024 * 1024 : Int) = 100663296 ∧
      (runMain env Flags.defaults).2.trace.filter Event.isNewRegionManager =
        (if (env.badgerOpen (engineOptions env.DefaultOptions Flags.defaults)).2 = none then
          [.NewRegionManager (mainDB env Flags.defaults)
            { StoreAddr := "127.0.0.1:9191"
              PDAddr := "127.0.0.1:2379"
              RegionSize := 100663296 }]
         else []) := by
  refine ⟨?_, logTraceMS_eq env _, by norm_num, ?_⟩
  · rw [openCalls_eq, engineOptions_eq]
    rfl
  · rw [regionManagerCalls_eq]
    rfl

/-- C3. Region manager and dispatcher wiring: when the engine opens, the only
constructor calls of the run are, in this order, `NewRegionManager` on the handle
returned by `badger.Open` with `RegionOptions` holding the flags `store-addr`,
`pd-addr` and `region-size`, `NewMVCCStore` on the same handle with `db-path`,
and `NewServer` on the Region Manager and the store these two calls returned. -/
theorem region_manager_wiring (env : Env) (f : Flags)
    (h : (env.badgerOpen (engineOptions env.DefaultOptions f)).2 = none) :
    (runMain env f).2.trace.filter Event.isOpenCall =
        [.badgerOpen (engineOptions env.DefaultOptions f)] ∧
      (runMain env f).2.trace.filter Event.isConstruction =
        [.NewRegionManager (env.badgerOpen (engineOptions env.DefaultOptions f)).1
            { StoreAddr := f.storeAddr, PDAddr := f.pdAddr, RegionSize := f.regionSize },
         .NewMVCCStore (env.badgerOpen (engineOptions env.DefaultOptions f)).1 f.dbPath,
         .NewServer
            (env.NewRegionManager (env.badgerOpen (engineOptions env.DefaultOptions f)).1
              { StoreAddr := f.storeAddr, PDAddr := f.pdAddr, RegionSize := f.regionSize })
            (env.NewMVCCStore (env.badgerOpen (engineOptions env.DefaultOptions f)).1
              f.dbPath)] := by
  refine ⟨openCalls_eq env f, ?_⟩
  rw [constructions_eq env f h, engineOptions_Dir]

/-- Witness of `region_manager_wiring`: the all-succeeding environment and the default flags. -/
theorem region_manager_wiring_witness :
    (sampleEnv.badgerOpen (engineOptions sampleEnv.DefaultOptions Flags.defaults)).2 = none ∧
      (runMain sampleEnv Flags.defaults).2.trace.filter Event.isOpenCall =
        [.badgerOpen (engineOptions sampleEnv.DefaultOptions Flags.defaults)] ∧
      (runMain sampleEnv Flags.defaults).2.trace.filter Event.isConstruction =
        [.NewRegionManager ⟨1⟩
            { StoreAddr := "127.0.0.1:9191", PDAddr := "127.0.0.1:2379", RegionSize := 100663296 },
         .NewMVCCStore ⟨1⟩ "/tmp/badger",
         .NewServer ⟨2⟩ ⟨3⟩] :=
  ⟨rfl, region_manager_wiring sampleEnv Flags.defaults rfl⟩

/-- C7. Engine open failure is fatal: when `badger.Open` returns the error `e`,
`main` does not return: the process is ended by `log.Fatal e`, which is the last
call of the run and directly follows `badger.Open`; none of the later steps (constructors,
`net.Listen`, `handleSignal`, `Serve`, `Stop`, `Close`) is performed. -/
theorem open_failure_fatal (env : Env) (f : Flags) (e : Error)
    (h : (env.badgerOpen (engineOptions env.DefaultOptions f)).2 = some e) :
    runMain env f =
        (.error (.fatal e),
          ⟨[.flagParse, .GOMAXPROCS f.maxProcs, .logInfo ["gitHash:", "None"],
            .logSetLevelByString f.logLevel,
            .logSetFlags ["Ldate", "Ltime", "Lmicroseconds", "Lshortfile"],
            .goHTTPListenAndServe f.httpAddr,
            .badgerOpen (engineOptions env.DefaultOptions f),
            .logFatal e],
           f.logTrace⟩) ∧
      (runMain env f).2.trace.filter Event.isLaterStep = [] := by
  rw [runMain_open_fail env f e h]
  exact ⟨rfl, rfl⟩

/-- Witness of `open_failure_fatal`: an environment whose `badger.Open` fails. -/
theorem open_failure_fatal_witness :
    (openFailEnv.badgerOpen (engineOptions openFailEnv.DefaultOptions Flags.defaults)).2 =
        some "Cannot acquire directory lock" ∧
      runMain openFailEnv Flags.defaults =
        (.error (.fatal "Cannot acquire directory lock"),
          ⟨[.flagParse, .GOMAXPROCS 0, .logInfo ["gitHash:", "None"],
            .logSetLevelByString "info",
            .logSetFlags ["Ldate", "Ltime", "Lmicroseconds", "Lshortfile"],
            .goHTTPListenAndServe "127.0.0.1:9291",
            .badgerOpen (engineOptions openFailEnv.DefaultOptions Flags.defaults),
            .logFatal "Cannot acquire directory lock"],
           300⟩) ∧
      (runMain openFailEnv Flags.defaults).2.trace.filter Event.isLaterStep = [] :=
  ⟨rfl, open_failure_fatal openFailEnv Flags.defaults "Cannot acquire directory lock" rfl⟩

/-- C1. Shutdown order: when the engine opens and the listener binds, `main`
returns, and the `Serve` call and the shutdown calls of the run are exactly, in
this order: `grpcServer.Serve`, `tikvServer.Stop`, `store.Close`, `rm.Close`,
`db.Close`, whatever `Serve` and the `Close` calls return. -/
theorem shutdown_order (env : Env) (f : Flags)
    (h : (env.badgerOpen (engineOptions env.DefaultOptions f)).2 = none)
    (hl : (env.netListen "tcp" f.storeAddr).2 = none) :
    (runMain env f).1 = .ok () ∧
      (runMain env f).2.trace.filter (fun ev => ev.isServeCall || ev.isShutdownCall) =
        [.Serve env.grpcNewServer (mainListener env f),
         .tikvServerStop (mainServer env f),
         .storeClose (mainStore env f),
         .rmClose (mainRM env f),
         .dbClose (mainDB env f)] := by
  rw [runMain_ok env f h hl]
  refine ⟨rfl, ?_⟩
  simp only [bootTrace, wireTrace, serveTrace, shutdownTrace, closeLog, mainListener,
    mainServer, mainStore, mainRM, mainDB]
  cases env.Serve env.grpcNewServer (env.netListen "tcp" f.storeAddr).1 <;>
  cases env.storeClose (env.NewMVCCStore
    (env.badgerOpen (engineOptions env.DefaultOptions f)).1
    (engineOptions env.DefaultOptions f).Dir) <;>
  cases env.rmClose (env.NewRegionManager
    (env.badgerOpen (engineOptions env.DefaultOptions f)).1
    { StoreAddr := f.storeAddr, PDAddr := f.pdAddr, RegionSize := f.regionSize }) <;>
  cases env.dbClose (env.badgerOpen (engineOptions env.DefaultOptions f)).1 <;>
  simp [Event.isServeCall, Event.isShutdownCall]

/-- Witness of `shutdown_order`: the all-succeeding environment and the default flags. -/
theorem shutdown_order_witness :
    (sampleEnv.badgerOpen (engineOptions sampleEnv.DefaultOptions Flags.defaults)).2 = none ∧
      (sampleEnv.netListen "tcp" Flags.defaults.storeAddr).2 = none ∧
      (runMain sampleEnv Flags.defaults).1 = .ok () ∧
      (runMain sampleEnv Flags.defaults).2.trace.filter
          (fun ev => ev.isServeCall || ev.isShutdownCall) =
        [.Serve ⟨5⟩ ⟨6⟩, .tikvServerStop ⟨4⟩, .storeClose ⟨3⟩, .rmClose ⟨2⟩, .dbClose ⟨1⟩] :=
  ⟨rfl, rfl, shutdown_order sampleEnv Flags.defaults rfl rfl⟩

/-- C8. Close steps are independent of each other: when the engine opens and the
listener binds, `main` returns and its trace holds exactly one `tikvServer.Stop`,
one `store.Close`, one `rm.Close` and one `db.Close` (and no other stop or close
call), whatever `Serve` and the `Close` calls return; an error returned by
`Serve`, `store.Close` or `rm.Close` is logged with `log.Error` right after the
call and the next step follows at once, and an error of `db.Close` is logged as
the last call of the run. -/
theorem close_steps_independent (env : Env) (f : Flags)
    (h : (env.badgerOpen (engineOptions env.DefaultOptions f)).2 = none)
    (hl : (env.netListen "tcp" f.storeAddr).2 = none) :
    (runMain env f).1 = .ok () ∧
      (runMain env f).2.trace.count (.tikvServerStop (mainServer env f)) = 1 ∧
      (runMain env f).2.trace.count (.storeClose (mainStore env f)) = 1 ∧
      (runMain env f).2.trace.count (.rmClose (mainRM env f)) = 1 ∧
      (runMain env f).2.trace.count (.dbClose (mainDB env f)) = 1 ∧
      ((runMain env f).2.trace.filter Event.isShutdownCall).length = 4 ∧
      (∀ e, env.Serve env.grpcNewServer (mainListener env f) = some e →
        [.Serve env.grpcNewServer (mainListener env f), .logError e,
          .tikvServerStop (mainServer env f)] <:+: (runMain env f).2.trace) ∧
      (∀ e, env.storeClose (mainStore env f) = some e →
        [.storeClose (mainStore env f), .logError e, .rmClose (mainRM env f)] <:+:
          (runMain env f).2.trace) ∧
      (∀ e, env.rmClose (mainRM env f) = some e →
        [.rmClose (mainRM env f), .logError e, .dbClose (mainDB env f)] <:+:
          (runMain env f).2.trace) ∧
      (∀ e, env.dbClose (mainDB env f) = some e →
        [.dbClose (mainDB env f), .logError e] <:+ (runMain env f).2.trace) := by
  have hc := shutdownCalls_eq env f h hl
  refine ⟨?_, ?_, ?_, ?_, ?_, ?_, ?_, ?_, ?_, ?_⟩
  · rw [runMain_ok env f h hl]
  · rw [count_shutdownCall _ (.tikvServerStop (mainServer env f)) rfl, hc]
    simp
  · rw [count_shutdownCall _ (.storeClose (mainStore env f)) rfl, hc]
    simp
  · rw [count_shutdownCall _ (.rmClose (mainRM env f)) rfl, hc]
    simp
  · rw [count_shutdownCall _ (.dbClose (mainDB env f)) rfl, hc]
    simp
  · rw [hc]
    rfl
  · intro e he
    rw [runMain_ok env f h hl]
    refine ⟨bootTrace env f ++ wireTrace env f ++
      [.signalNotify [.SIGHUP, .SIGINT, .SIGTERM, .SIGQUIT], .goSignalWaiter env.grpcNewServer],
      (shutdownTrace env f).tail, ?_⟩
    simp only [mainListener] at he
    simp [serveTrace, shutdownTrace, he, mainListener, mainServer, mainRM, mainStore, mainDB]
  · intro e he
    rw [runMain_ok env f h hl]
    refine ⟨bootTrace env f ++ wireTrace env f ++ serveTrace env f ++
      [.tikvServerStop (mainServer env f), .logInfo ["Server stopped."]],
      closeLog (env.rmClose (mainRM env f)) "RegionManager closed." ++
        [.dbClose (mainDB env f)] ++ closeLog (env.dbClose (mainDB env f)) "DB closed.", ?_⟩
    simp only [mainStore, mainDB] at he
    simp [shutdownTrace, closeLog, he, mainServer, mainRM, mainStore, mainDB]
  · intro e he
    rw [runMain_ok env f h hl]
    refine ⟨bootTrace env f ++ wireTrace env f ++ serveTrace env f ++
      [.tikvServerStop (mainServer env f), .logInfo ["Server stopped."],
        .storeClose (mainStore env f)] ++
      closeLog (env.storeClose (mainStore env f)) "Store closed.",
      closeLog (env.dbClose (mainDB env f)) "DB closed.", ?_⟩
    simp only [mainRM, mainDB] at he
    simp [shutdownTrace, closeLog, he, mainServer, mainRM, mainStore, mainDB]
  · intro e he
    rw [runMain_ok env f h hl]
    refine ⟨bootTrace env f ++ wireTrace env f ++ serveTrace env f ++
      [.tikvServerStop (mainServer env f), .logInfo ["Server stopped."],
        .storeClose (mainStore env f)] ++
      closeLog (env.storeClose (mainStore env f)) "Store closed." ++
      [.rmClose (mainRM env f)] ++ closeLog (env.rmClose (mainRM env f)) "RegionManager closed.",
      ?_⟩
    simp only [mainDB] at he
    simp [shutdownTrace, closeLog, he, mainServer, mainRM, mainStore, mainDB]

/-- Witness of `close_steps_independent`: an environment in which `Serve`,
`store.Close` and `rm.Close` all return an error. -/
theorem close_steps_independent_witness :
    (closeFailEnv.badgerOpen (engineOptions closeFailEnv.DefaultOptions Flags.defaults)).2 = none ∧
      (closeFailEnv.netListen "tcp" Flags.defaults.storeAddr).2 = none ∧
      (runMain closeFailEnv Flags.defaults).1 = .ok () ∧
      (runMain closeFailEnv Flags.defaults).2.trace.count (.tikvServerStop ⟨4⟩) = 1 ∧
      (runMain closeFailEnv Flags.defaults).2.trace.count (.storeClose ⟨3⟩) = 1 ∧
      (runMain closeFailEnv Flags.defaults).2.trace.count (.rmClose ⟨2⟩) = 1 ∧
      (runMain closeFailEnv Flags.defaults).2.trace.count (.dbClose ⟨1⟩) = 1 ∧
      ((runMain closeFailEnv Flags.defaults).2.trace.filter Event.isShutdownCall).length = 4 ∧
      [.Serve ⟨5⟩ ⟨6⟩, .logError "use of closed network connection", .tikvServerStop ⟨4⟩] <:+:
        (runMain closeFailEnv Flags.defaults).2.trace ∧
      [.storeClose ⟨3⟩, .logError "store: close failed", .rmClose ⟨2⟩] <:+:
        (runMain closeFailEnv Flags.defaults).2.trace ∧
      [.rmClose ⟨2⟩, .logError "region manager: close failed", .dbClose ⟨1⟩] <:+:
        (runMain closeFailEnv Flags.defaults).2.trace :=
  have t := close_steps_independent closeFailEnv Flags.defaults rfl rfl
  ⟨rfl, rfl, t.1, t.2.1, t.2.2.1, t.2.2.2.1, t.2.2.2.2.1, t.2.2.2.2.2.1,
    t.2.2.2.2.2.2.1 _ rfl, t.2.2.2.2.2.2.2.1 _ rfl, t.2.2.2.2.2.2.2.2.1 _ rfl⟩

end FakeTikv
